import Mathlib

/-!
Verification of the active-section (scroll-spy) tracker of this repository.

The repository contains two variants of `SectionObserverDirective`:

* the reference-line variant (in the concatenated script/source bundle,
  `convert-commands.js`): `findClosestSection` selects, among the visible
  sections, the one whose top edge is closest to a fixed reference line
  (`referenceLineY = 148`), and the directive throttles scroll events with a
  50ms trailing timer;
* the header-offset variant (`src/app/directives/section-observer.directive.ts`):
  `findClosestSection` first restricts to sections whose top edge lies within
  `headerOffset + 50` of the viewport top and picks the one closest to
  `headerOffset = 100`; if none is in that band it falls back to the first
  visible section in the configured order.

DOM geometry is modelled by a function `geom : String → Option Int`:
`geom id = some t` means `document.getElementById(id)` exists and its
`getBoundingClientRect().top` is `t`; `geom id = none` means the element is
absent.  The JS `Set<string>` of visible sections is modelled as a
duplicate-free list preserving insertion order.
-/

/-- A visible section together with its sampled `getBoundingClientRect().top`,
as built inside `findClosestSection` of the reference-line variant. -/
structure Section where
  id : String
  top : Int
deriving DecidableEq, Repr

/-- `Math.abs(s.top - referenceLineY)`: distance of a section's top edge from
the reference line. -/
def distTo (refLine : Int) (s : Section) : Int :=
  |s.top - refLine|

/-- The body of the `reduce` in the reference-line `findClosestSection`:
`(closest, current) => currentDistance < closestDistance ? current : closest`. -/
def closerToRef (refLine : Int) (closest current : Section) : Section :=
  if distTo refLine current < distTo refLine closest then current else closest

/-- `sectionsInView` of the reference-line `findClosestSection`: the configured
ids, in order, restricted to the visible set, paired with their top offsets;
ids with no corresponding element are dropped (`filter(item !== null)`). -/
def sectionsInView (ids visibleSections : List String)
    (geom : String → Option Int) : List Section :=
  (ids.filter (fun id => visibleSections.contains id)).filterMap
    (fun id => (geom id).map (fun t => { id := id, top := t }))

/-- The tail of the reference-line `findClosestSection`: returns `null` when no
section is in view, otherwise the id of
`sectionsInView.reduce(closerToRef, sectionsInView[0])`. -/
def findClosestCore (refLine : Int) : List Section → Option String
  | [] => none
  | s0 :: rest => some (((s0 :: rest).foldl (closerToRef refLine) s0).id)

/-- `const referenceLineY = 148` of the reference-line variant. -/
def referenceLineY : Int := 148

/-- The reference-line `findClosestSection` (convert-commands.js bundle):
builds `sectionsInView` and reduces it to the section closest to
`referenceLineY`. -/
def findClosestSection (ids visibleSections : List String)
    (geom : String → Option Int) : Option String :=
  findClosestCore referenceLineY (sectionsInView ids visibleSections geom)

/-- `emitActiveSection` of the reference-line variant: returns the id that
would be emitted (`none` when nothing is emitted).  Mirrors
`if (visibleSections.size === 0) return; const activeId = findClosestSection();
if (activeId) emit(activeId)`; the truthiness test also rejects the empty
string. -/
def emitActiveSection (ids visibleSections : List String)
    (geom : String → Option Int) : Option String :=
  if visibleSections.length = 0 then none
  else
    match findClosestSection ids visibleSections geom with
    | none => none
    | some activeId => if activeId = "" then none else some activeId

/-! ## Header-offset variant (src/app/directives/section-observer.directive.ts) -/

/-- `const headerOffset = 100` of the header-offset variant. -/
def headerOffset : Int := 100

/-- An entry of `visibleWithPositions` in the header-offset variant:
`{ id, top: rect.top, distanceFromHeader: Math.abs(rect.top - headerOffset) }`. -/
structure SectionPos where
  id : String
  top : Int
  distanceFromHeader : Int
deriving DecidableEq, Repr

/-- `visibleWithPositions` of the header-offset variant. -/
def visibleWithPositions (ids visibleSections : List String)
    (geom : String → Option Int) : List SectionPos :=
  (ids.filter (fun id => visibleSections.contains id)).filterMap
    (fun id => (geom id).map
      (fun t => { id := id, top := t, distanceFromHeader := |t - headerOffset| }))

/-- `sectionsNearTop`: visible sections whose top edge is within
`headerOffset + 50` of the viewport top. -/
def sectionsNearTop (vis : List SectionPos) : List SectionPos :=
  vis.filter (fun item => item.top ≤ headerOffset + 50)

/-- The body of the `reduce` in the header-offset `findClosestSection`. -/
def closerToHeader (closest current : SectionPos) : SectionPos :=
  if current.distanceFromHeader < closest.distanceFromHeader then current else closest

/-- The decision tail of the header-offset `findClosestSection`: `null` when no
section is in view; the reduction of `sectionsNearTop` when that band is
non-empty; otherwise the first visible section. -/
def pickNearTop : List SectionPos → Option String
  | [] => none
  | v0 :: vrest =>
    match sectionsNearTop (v0 :: vrest) with
    | [] => some v0.id
    | n0 :: nrest => some (((n0 :: nrest).foldl closerToHeader n0).id)

/-- The header-offset `findClosestSection`. -/
def findClosestSectionA (ids visibleSections : List String)
    (geom : String → Option Int) : Option String :=
  pickNearTop (visibleWithPositions ids visibleSections geom)

/-- `emitActiveSection` of the header-offset variant (same shape as the
reference-line one). -/
def emitActiveSectionA (ids visibleSections : List String)
    (geom : String → Option Int) : Option String :=
  if visibleSections.length = 0 then none
  else
    match findClosestSectionA ids visibleSections geom with
    | none => none
    | some activeId => if activeId = "" then none else some activeId

/-! ## Directive lifecycle (reference-line variant)

The directive's mutable state and the event handlers that drive it.  The
`IntersectionObserver` only delivers entries for targets it currently
observes, and `disconnect()` releases every target; this environment fact is
modelled by the `observed` field and by filtering incoming entries against it.
Timers are modelled as pending flags fired by explicit events. -/

/-- JS `Set.add`: append if absent (insertion order preserved). -/
def setAdd (s : List String) (x : String) : List String :=
  if s.contains x then s else s ++ [x]

/-- JS `Set.delete`. -/
def setDelete (s : List String) (x : String) : List String :=
  s.filter (fun y => y ≠ x)

/-- Mutable state of the directive together with the host resources it touches:
the current `sectionIds` input, the set of element ids observed by the
`IntersectionObserver`, the `visibleSections` set, the queue of pending 500ms
`setTimeout(observeSections)` callbacks created by the `effect`, whether the
global scroll listener has been installed, whether a 50ms throttle timer is
pending, and whether `ngOnDestroy` has run. -/
structure TrackerState where
  sectionIds : List String
  observed : List String
  visibleSections : List String
  pendingObserves : List (List String)
  scrollListenerInstalled : Bool
  scrollTimerPending : Bool
  destroyed : Bool
deriving DecidableEq, Repr

/-- State before the host supplies any input. -/
def initialState : TrackerState :=
  { sectionIds := []
    observed := []
    visibleSections := []
    pendingObserves := []
    scrollListenerInstalled := false
    scrollTimerPending := false
    destroyed := false }

/-- The `effect` body run when the host sets the `sectionIds` input:
`if (ids.length === 0) return;` then `observer.disconnect()`,
`visibleSections.clear()`, and `setTimeout(() => observeSections(ids), 500)`.
Earlier pending timeouts are not cancelled. -/
def configureEvent (ids : List String) (s : TrackerState) : TrackerState :=
  if ids.length = 0 then { s with sectionIds := ids }
  else
    { s with
      sectionIds := ids
      observed := []
      visibleSections := []
      pendingObserves := s.pendingObserves ++ [ids] }

/-- The ids of `observeSections` that actually get observed: those whose
element exists (`if (element) observer.observe(element)`). -/
def observeSections (ids : List String) (geom : String → Option Int) : List String :=
  ids.filter (fun id => (geom id).isSome)

/-- The oldest pending `setTimeout(observeSections)` fires: the surviving ids
are observed and the global scroll listener is installed
(`globalThis.addEventListener('scroll', ...)`).  Note the code runs this even
after `ngOnDestroy`, and never removes the scroll listener. -/
def observeTimeoutFire (geom : String → Option Int) (s : TrackerState) : TrackerState :=
  match s.pendingObserves with
  | [] => s
  | ids :: restPending =>
    { s with
      pendingObserves := restPending
      observed := (observeSections ids geom).foldl setAdd s.observed
      scrollListenerInstalled := true }

/-- The `IntersectionObserver` callback.  The browser only delivers entries
for currently observed targets, so the entries are filtered against
`observed`; if none survives, the callback does not fire at all.  Otherwise
each entry updates `visibleSections` and `emitActiveSection` runs once.
Returns the new state and the emitted id, if any. -/
def intersectionEvent (geom : String → Option Int)
    (entries : List (String × Bool)) (s : TrackerState) :
    TrackerState × Option String :=
  let delivered := entries.filter (fun e => s.observed.contains e.1)
  if delivered.length = 0 then (s, none)
  else
    let visible := delivered.foldl
      (fun vs e => if e.2 then setAdd vs e.1 else setDelete vs e.1)
      s.visibleSections
    ({ s with visibleSections := visible },
      emitActiveSection s.sectionIds visible geom)

/-- A raw scroll event: the (never removed) listener clears any pending
throttle timer and arms a fresh 50ms one. -/
def scrollEvent (s : TrackerState) : TrackerState :=
  if s.scrollListenerInstalled then { s with scrollTimerPending := true } else s

/-- The 50ms throttle timer fires: `emitActiveSection()` runs on the current
state.  Returns the new state and the emitted id, if any. -/
def scrollTimerFire (geom : String → Option Int) (s : TrackerState) :
    TrackerState × Option String :=
  if s.scrollTimerPending then
    ({ s with scrollTimerPending := false },
      emitActiveSection s.sectionIds s.visibleSections geom)
  else (s, none)

/-- `ngOnDestroy`: `observer.disconnect()` (all observations released) and
`clearTimeout(scrollTimerId)` (pending throttle timer cancelled).  The
pending observe timeouts, the scroll listener and `visibleSections` are left
untouched. -/
def destroyEvent (s : TrackerState) : TrackerState :=
  { s with observed := [], scrollTimerPending := false, destroyed := true }

/-! ## Concrete traces used by the closed scenario theorems -/

/-- DOM for the reconfiguration scenario: elements `a`, `b`, `c`, `d` exist. -/
def geomC4 : String → Option Int :=
  fun id => if (["a", "b", "c", "d"] : List String).contains id then some 100 else none

/-- State after `configure(["a","b"])`, its observe timeout, a visibility
event for `a`, and `configure(["c","d"])`. -/
def traceC4_afterReconfig : TrackerState :=
  configureEvent ["c", "d"]
    (intersectionEvent geomC4 [("a", true)]
      (observeTimeoutFire geomC4 (configureEvent ["a", "b"] initialState))).1

/-- `traceC4_afterReconfig` after the second observe timeout fires. -/
def traceC4_final : TrackerState :=
  observeTimeoutFire geomC4 traceC4_afterReconfig

/-- DOM for the disposal scenario: only element `a` exists, at top 130. -/
def geomC5 : String → Option Int :=
  fun id => if id = "a" then some 130 else none

/-- State after `configure(["a"])`, its observe timeout, a visibility event
for `a`, and then `ngOnDestroy`. -/
def traceC5_afterDestroy : TrackerState :=
  destroyEvent
    (intersectionEvent geomC5 [("a", true)]
      (observeTimeoutFire geomC5 (configureEvent ["a"] initialState))).1

/-! ## Helper lemmas -/

/-- Characterization of the `reduce` scan in the reference-line
`findClosestSection`: either the accumulator survives and is at least as close
as every list element, or the result is the element at the first position
where the running distance strictly improves below the accumulator; nothing
before that position comes as close, nothing after comes strictly closer. -/
theorem foldl_first_min (refLine : Int) (l : List Section) :
    ∀ acc : Section,
      (l.foldl (closerToRef refLine) acc = acc ∧
        ∀ x ∈ l, distTo refLine acc ≤ distTo refLine x) ∨
      (∃ l1 r l2, l = l1 ++ r :: l2 ∧
        l.foldl (closerToRef refLine) acc = r ∧
        distTo refLine r < distTo refLine acc ∧
        (∀ t ∈ l1, distTo refLine r < distTo refLine t) ∧
        (∀ t ∈ l2, distTo refLine r ≤ distTo refLine t)) := by
  induction l with
  | nil =>
    intro acc
    exact Or.inl ⟨rfl, by simp⟩
  | cons x xs ih =>
    intro acc
    by_cases hx : distTo refLine x < distTo refLine acc
    · have hfx : closerToRef refLine acc x = x := if_pos hx
      rcases ih x with ⟨heq, hmin⟩ | ⟨l1, r, l2, hsplit, heq, hlt, hstrict, hl2⟩
      · refine Or.inr ⟨[], x, xs, rfl, ?_, hx, by simp, hmin⟩
        rw [List.foldl_cons, hfx, heq]
      · refine Or.inr ⟨x :: l1, r, l2, by rw [hsplit, List.cons_append], ?_, lt_trans hlt hx, ?_, hl2⟩
        · rw [List.foldl_cons, hfx, heq]
        · intro t ht
          rcases List.mem_cons.mp ht with h | h
          · subst h; exact hlt
          · exact hstrict t h
    · have hfx : closerToRef refLine acc x = acc := if_neg hx
      have hax : distTo refLine acc ≤ distTo refLine x := le_of_not_lt hx
      rcases ih acc with ⟨heq, hmin⟩ | ⟨l1, r, l2, hsplit, heq, hlt, hstrict, hl2⟩
      · refine Or.inl ⟨?_, ?_⟩
        · rw [List.foldl_cons, hfx, heq]
        · intro t ht
          rcases List.mem_cons.mp ht with h | h
          · subst h; exact hax
          · exact hmin t h
      · refine Or.inr ⟨x :: l1, r, l2, by rw [hsplit, List.cons_append], ?_, hlt, ?_, hl2⟩
        · rw [List.foldl_cons, hfx, heq]
        · intro t ht
          rcases List.mem_cons.mp ht with h | h
          · subst h; exact lt_of_lt_of_le hlt hax
          · exact hstrict t h

/-- `findClosestCore` on a non-empty list picks the first candidate achieving
the minimal distance to the reference line: every earlier candidate is
strictly farther, every candidate is at least as far. -/
theorem findClosestCore_spec (refLine : Int) (s0 : Section) (rest : List Section) :
    ∃ l1 r l2, s0 :: rest = l1 ++ r :: l2 ∧
      findClosestCore refLine (s0 :: rest) = some r.id ∧
      (∀ t ∈ s0 :: rest, distTo refLine r ≤ distTo refLine t) ∧
      (∀ t ∈ l1, distTo refLine r < distTo refLine t) := by
  have hss : closerToRef refLine s0 s0 = s0 := by
    unfold closerToRef; exact if_neg (lt_irrefl _)
  have hfold : findClosestCore refLine (s0 :: rest) =
      some ((rest.foldl (closerToRef refLine) s0).id) := by
    show some (((s0 :: rest).foldl (closerToRef refLine) s0).id) = _
    rw [List.foldl_cons, hss]
  rcases foldl_first_min refLine rest s0 with ⟨heq, hmin⟩ |
    ⟨l1, r, l2, hsplit, heq, hlt, hstrict, hl2⟩
  · refine ⟨[], s0, rest, rfl, ?_, ?_, by simp⟩
    · rw [hfold, heq]
    · intro t ht
      rcases List.mem_cons.mp ht with h | h
      · subst h; exact le_refl _
      · exact hmin t h
  · refine ⟨s0 :: l1, r, l2, by rw [hsplit, List.cons_append], ?_, ?_, ?_⟩
    · rw [hfold, heq]
    · intro t ht
      rcases List.mem_cons.mp ht with h | h
      · subst h; exact le_of_lt hlt
      · rw [hsplit] at h
        rcases List.mem_append.mp h with h | h
        · exact le_of_lt (hstrict t h)
        · rcases List.mem_cons.mp h with h | h
          · subst h; exact le_refl _
          · exact hl2 t h
    · intro t ht
      rcases List.mem_cons.mp ht with h | h
      · subst h; exact hlt
      · exact hstrict t h

/-- The id returned by `findClosestCore` belongs to one of the scanned
sections. -/
theorem findClosestCore_mem {refLine : Int} {l : List Section} {a : String}
    (h : findClosestCore refLine l = some a) : ∃ sec ∈ l, sec.id = a := by
  match l with
  | [] => exact Option.noConfusion h
  | s0 :: rest =>
    obtain ⟨l1, r, l2, hsplit, hres, -, -⟩ := findClosestCore_spec refLine s0 rest
    rw [hres] at h
    refine ⟨r, ?_, Option.some.inj h⟩
    rw [hsplit]
    exact List.mem_append_right _ (List.mem_cons_self _ _)

/-- Membership in `sectionsInView` unpacked: the id is configured, visible,
and its element exists with the recorded top offset. -/
theorem mem_sectionsInView {ids visible : List String} {geom : String → Option Int}
    {sec : Section} (h : sec ∈ sectionsInView ids visible geom) :
    sec.id ∈ ids ∧ sec.id ∈ visible ∧ geom sec.id = some sec.top := by
  unfold sectionsInView at h
  obtain ⟨i, hi, hmap⟩ := List.mem_filterMap.mp h
  obtain ⟨t, hg, hst⟩ := Option.map_eq_some'.mp hmap
  obtain ⟨hid, hcon⟩ := List.mem_filter.mp hi
  subst hst
  exact ⟨hid, by simpa using hcon, hg⟩

/-- The id returned by the reference-line `findClosestSection` names one of
the sections in view. -/
theorem findClosestSection_mem {ids visible : List String}
    {geom : String → Option Int} {a : String}
    (h : findClosestSection ids visible geom = some a) :
    ∃ sec ∈ sectionsInView ids visible geom, sec.id = a :=
  findClosestCore_mem h

/-! ## Claim theorems -/

/-- C1: for every sampling instant with a non-empty set of visible candidates,
the reference-line selection (`findClosestCore`, the scan of
`findClosestSection` over `sectionsInView`, instantiated by the code at
`referenceLineY`) returns a candidate whose top-edge distance from the
viewport top minimizes the absolute difference to the reference line.  In
particular (witness) for candidates at tops 10, 130, 300 with reference line
120, the candidate at 130 is selected. -/
theorem C1_reference_line_minimizer (refLine : Int) (sections : List Section)
    (h : sections ≠ []) :
    ∃ s ∈ sections, findClosestCore refLine sections = some s.id ∧
      ∀ t ∈ sections, distTo refLine s ≤ distTo refLine t := by
  match sections, h with
  | s0 :: rest, _ =>
    obtain ⟨l1, r, l2, hsplit, hres, hmin, -⟩ := findClosestCore_spec refLine s0 rest
    refine ⟨r, ?_, hres, hmin⟩
    rw [hsplit]
    exact List.mem_append_right _ (List.mem_cons_self _ _)

/-- Witness for C1 at the claim's concrete instance: candidates at top-edge
distances 10, 130 and 300 with reference line 120; the candidate at 130 is
selected. -/
theorem C1_witness :
    (([⟨"s1", 10⟩, ⟨"s2", 130⟩, ⟨"s3", 300⟩] : List Section) ≠ []) ∧
    findClosestCore 120 [⟨"s1", 10⟩, ⟨"s2", 130⟩, ⟨"s3", 300⟩] = some "s2" ∧
    (∃ s ∈ ([⟨"s1", 10⟩, ⟨"s2", 130⟩, ⟨"s3", 300⟩] : List Section),
      findClosestCore 120 [⟨"s1", 10⟩, ⟨"s2", 130⟩, ⟨"s3", 300⟩] = some s.id ∧
      ∀ t ∈ ([⟨"s1", 10⟩, ⟨"s2", 130⟩, ⟨"s3", 300⟩] : List Section),
        distTo 120 s ≤ distTo 120 t) :=
  ⟨by decide, by decide, C1_reference_line_minimizer 120 _ (by decide)⟩

/-- C2: the reference-line scan breaks ties by scan order.  On any non-empty
candidate list (`sectionsInView` preserves the configured id order) the
selected candidate is minimal-distance and every candidate strictly before it
in the scan is strictly farther from the reference line; hence of two
equidistant minimal candidates the one appearing earlier in the configured
order is selected. -/
theorem C2_tie_break_first_in_order (refLine : Int) (s0 : Section)
    (rest : List Section) :
    ∃ l1 r l2, s0 :: rest = l1 ++ r :: l2 ∧
      findClosestCore refLine (s0 :: rest) = some r.id ∧
      (∀ t ∈ s0 :: rest, distTo refLine r ≤ distTo refLine t) ∧
      (∀ t ∈ l1, distTo refLine r < distTo refLine t) :=
  findClosestCore_spec refLine s0 rest

/-- C3: when the visible-sections set is empty, both variants of
`findClosestSection` yield `none` and both variants of `emitActiveSection`
emit nothing. -/
theorem C3_empty_visible_no_emission (ids : List String)
    (geom : String → Option Int) :
    findClosestSection ids [] geom = none ∧
    emitActiveSection ids [] geom = none ∧
    findClosestSectionA ids [] geom = none ∧
    emitActiveSectionA ids [] geom = none := by
  have hfil : ids.filter (fun id => (([] : List String).contains id)) = [] :=
    List.filter_eq_nil_iff.mpr (fun a _ h => Bool.noConfusion h)
  have h1 : sectionsInView ids [] geom = [] := by
    unfold sectionsInView
    rw [hfil]
    rfl
  have h2 : visibleWithPositions ids [] geom = [] := by
    unfold visibleWithPositions
    rw [hfil]
    rfl
  refine ⟨?_, rfl, ?_, rfl⟩
  · show findClosestCore referenceLineY (sectionsInView ids [] geom) = none
    rw [h1]
    rfl
  · show pickNearTop (visibleWithPositions ids [] geom) = none
    rw [h2]
    rfl

/-- C6: reconfiguring with an empty id list is a no-op on the tracking state:
the `effect` returns before disconnecting, so the observed elements, the
visible-sections set, the pending observe timeouts, the scroll listener and
any pending throttle timer are all left unchanged, and no new observation is
scheduled. -/
theorem C6_empty_configure_noop (s : TrackerState) :
    (configureEvent [] s).observed = s.observed ∧
    (configureEvent [] s).visibleSections = s.visibleSections ∧
    (configureEvent [] s).pendingObserves = s.pendingObserves ∧
    (configureEvent [] s).scrollListenerInstalled = s.scrollListenerInstalled ∧
    (configureEvent [] s).scrollTimerPending = s.scrollTimerPending := by
  simp [configureEvent]

/-- C4: after `configure(["a","b"])` (observed, with a visibility event making
`a` visible) followed by `configure(["c","d"])`, the prior observation is
released and the visible-sections set is cleared; a subsequent visibility
event for `a` — whether it arrives before or after the new observe timeout —
is not delivered (the observer no longer watches `a`), leaves the state
unchanged and emits nothing. -/
theorem C4_reconfigure_clears_state :
    traceC4_afterReconfig.observed = [] ∧
    traceC4_afterReconfig.visibleSections = [] ∧
    (intersectionEvent geomC4 [("a", true)] traceC4_afterReconfig).1 =
      traceC4_afterReconfig ∧
    (intersectionEvent geomC4 [("a", true)] traceC4_afterReconfig).2 = none ∧
    traceC4_final.observed = ["c", "d"] ∧
    (intersectionEvent geomC4 [("a", true)] traceC4_final).1 = traceC4_final ∧
    (intersectionEvent geomC4 [("a", true)] traceC4_final).2 = none := by
  decide

/-- C5 (code bug): after `configure(["a"])`, its observe timeout, a
visibility event for `a`, and `ngOnDestroy`, the pending throttle timer is
indeed cancelled — but the global scroll listener installed by
`observeSections` is never removed, so a scroll event arriving after disposal
arms a fresh throttle timer whose firing emits `"a"`: an active-id emission
after disposal, contradicting the claim. -/
theorem C5_destroy_leak_emission :
    traceC5_afterDestroy.destroyed = true ∧
    traceC5_afterDestroy.scrollTimerPending = false ∧
    traceC5_afterDestroy.scrollListenerInstalled = true ∧
    (scrollEvent traceC5_afterDestroy).scrollTimerPending = true ∧
    (scrollTimerFire geomC5 (scrollEvent traceC5_afterDestroy)).2 = some "a" := by
  decide

/-- C7: a configured id whose element is missing (`geom x = none`) is silently
skipped: it is never among the ids `observeSections` observes, it never
appears in `sectionsInView`, and `findClosestSection` never returns it. -/
theorem C7_missing_element_skipped (ids visible : List String)
    (geom : String → Option Int) (x : String) (h : geom x = none) :
    x ∉ observeSections ids geom ∧
    (∀ sec ∈ sectionsInView ids visible geom, sec.id ≠ x) ∧
    (∀ a, findClosestSection ids visible geom = some a → a ≠ x) := by
  have hmem : ∀ sec ∈ sectionsInView ids visible geom, sec.id ≠ x := by
    intro sec hsec he
    obtain ⟨-, -, hg⟩ := mem_sectionsInView hsec
    rw [he, h] at hg
    exact Option.noConfusion hg
  refine ⟨?_, hmem, ?_⟩
  · intro hx
    have hsome := (List.mem_filter.mp hx).2
    rw [h] at hsome
    exact Bool.noConfusion hsome
  · intro a ha
    obtain ⟨sec, hsec, hid⟩ := findClosestSection_mem ha
    rw [← hid]
    exact hmem sec hsec

/-- Witness for C7: with elements only for `x`, the configured id `y` (no
element) is skipped everywhere. -/
theorem C7_witness :
    "y" ∉ observeSections ["x", "y"] (fun i => if i = "x" then some 10 else none) ∧
    (∀ sec ∈ sectionsInView ["x", "y"] ["x", "y"]
        (fun i => if i = "x" then some 10 else none), sec.id ≠ "y") ∧
    (∀ a, findClosestSection ["x", "y"] ["x", "y"]
        (fun i => if i = "x" then some 10 else none) = some a → a ≠ "y") :=
  C7_missing_element_skipped ["x", "y"] ["x", "y"]
    (fun i => if i = "x" then some 10 else none) "y" (by decide)

/-- C8: whenever the reference-line `findClosestSection` returns an id, that
id is a member of the visible-sections set and of the configured id list. -/
theorem C8_active_is_visible_and_configured (ids visible : List String)
    (geom : String → Option Int) (a : String)
    (h : findClosestSection ids visible geom = some a) :
    a ∈ visible ∧ a ∈ ids := by
  obtain ⟨sec, hsec, hid⟩ := findClosestSection_mem h
  obtain ⟨h1, h2, -⟩ := mem_sectionsInView hsec
  rw [← hid]
  exact ⟨h2, h1⟩

/-- Witness for C8: with one configured, visible id `x` whose element exists,
`findClosestSection` returns `x`, which is visible and configured. -/
theorem C8_witness :
    "x" ∈ (["x"] : List String) ∧ "x" ∈ (["x"] : List String) :=
  C8_active_is_visible_and_configured ["x"] ["x"]
    (fun i => if i = "x" then some 0 else none) "x" (by decide)

/-- C9: no de-duplication of consecutive identical emissions: if the throttle
timer fires and `emitActiveSection` yields an id, the id is emitted; and after
another scroll re-arms the timer, a second fire on the unchanged tracked set
and geometry emits the very same id again. -/
theorem C9_no_dedup (geom : String → Option Int) (s : TrackerState) (a : String)
    (hlis : s.scrollListenerInstalled = true)
    (htimer : s.scrollTimerPending = true)
    (hemit : emitActiveSection s.sectionIds s.visibleSections geom = some a) :
    (scrollTimerFire geom s).2 = some a ∧
    (scrollTimerFire geom (scrollEvent (scrollTimerFire geom s).1)).2 = some a := by
  simp [scrollTimerFire, scrollEvent, htimer, hlis, hemit]

/-- Witness for C9: a tracker with `a` visible emits `a` on two consecutive
geometry samples. -/
theorem C9_witness :
    (scrollTimerFire (fun i => if i = "a" then some 130 else none)
      ⟨["a"], ["a"], ["a"], [], true, true, false⟩).2 = some "a" ∧
    (scrollTimerFire (fun i => if i = "a" then some 130 else none)
      (scrollEvent (scrollTimerFire (fun i => if i = "a" then some 130 else none)
        ⟨["a"], ["a"], ["a"], [], true, true, false⟩).1)).2 = some "a" :=
  C9_no_dedup (fun i => if i = "a" then some 130 else none)
    ⟨["a"], ["a"], ["a"], [], true, true, false⟩ "a" rfl rfl (by decide)

/-- C10: in the header-offset variant, when some candidates are in view but
none has its top edge at or above `headerOffset + 50`, `findClosestSection`
returns the first visible candidate in the configured order (the head of
`visibleWithPositions`). -/
theorem C10_fallback_first_visible (ids visible : List String)
    (geom : String → Option Int) (v0 : SectionPos) (vrest : List SectionPos)
    (hv : visibleWithPositions ids visible geom = v0 :: vrest)
    (hfar : ∀ item ∈ v0 :: vrest, ¬(item.top ≤ headerOffset + 50)) :
    findClosestSectionA ids visible geom = some v0.id := by
  have hfilter : sectionsNearTop (v0 :: vrest) = [] :=
    List.filter_eq_nil_iff.mpr (fun a ha => by simpa using hfar a ha)
  unfold findClosestSectionA
  rw [hv]
  simp only [pickNearTop, hfilter]

/-- Witness for C10: both visible candidates have tops 200 and 300, strictly
below the 150 threshold band; the first one (`p`) is returned. -/
theorem C10_witness :
    findClosestSectionA ["p", "q"] ["p", "q"]
      (fun i => if i = "p" then some 200 else if i = "q" then some 300 else none) =
      some "p" :=
  C10_fallback_first_visible ["p", "q"] ["p", "q"]
    (fun i => if i = "p" then some 200 else if i = "q" then some 300 else none)
    ⟨"p", 200, 100⟩ [⟨"q", 300, 200⟩] (by decide) (by decide)
